import Mathlib

/-!
Formal model of the time-tracker core (Rust sources of KyokoSpl/time-tracker).

Modelling conventions, fixed once for the whole file:
* Clock readings (`Local::now().timestamp_millis()`, an `i64`) are modelled as
  `Int` and passed explicitly to every operation that reads the clock.
* `std::time::Duration` values are modelled as whole milliseconds (`Nat`),
  the granularity at which the tauri build manipulates them
  (`Duration::from_millis`, `Duration::as_secs` = division by 1000).
* `DateTime<Local>` creation times are modelled as `Int` epoch-millisecond
  timestamps (`Local::now()` has sub-second resolution).  chrono's serde
  serialization round-trips a `DateTime<Local>` exactly, so persistence copies
  the timestamp.  The display format `%Y-%m-%d %H:%M:%S` truncates to whole
  seconds: two formatted strings compare equal exactly when the timestamps
  fall in the same whole second and otherwise compare as the timestamps do
  (timestamps from `Local::now()` are nonnegative, where `/ 1000` on `Int` is
  that truncation), so the DTO's formatted `created_at` string is modelled by
  the second-truncated timestamp.
* The `HashMap<String, Task>` is modelled as the partial map
  `String → Option Task`; where an operation depends on the map's iteration
  order (`values()` in `get_tasks`), the model takes the iteration order as an
  explicit list argument and quantifies over it.
* Rust functions returning `Result<_, String>` are modelled with an error type
  `TError` whose constructors stand for the exact message templates produced by
  the source (noted on each constructor).
-/

namespace TimeTracker

/-- Model of `struct Task` (src/src-tauri/src/task.rs, lines 7-16).
`total_time : Duration` is milliseconds, `start_timestamp : Option<i64>`
is the session start in epoch milliseconds, `created_at : DateTime<Local>`
is an `Int` epoch-millisecond timestamp. -/
structure Task where
  name : String
  total_time : Nat
  start_timestamp : Option Int
  is_running : Bool
  created_at : Int
  deriving DecidableEq, Repr

/-- `Task::new` (task.rs, lines 20-28): fresh task, zero time, not running;
`created_at` is the current clock reading `now`. -/
def Task.new (name : String) (now : Int) : Task :=
  { name := name
    total_time := 0
    start_timestamp := none
    is_running := false
    created_at := now }

/-- `Task::start` (task.rs, lines 31-36): if not running, record `now` as the
session start and set the running flag; otherwise do nothing. -/
def Task.start (t : Task) (now : Int) : Task :=
  if !t.is_running then
    { t with start_timestamp := some now, is_running := true }
  else t

/-- `Task::stop` (task.rs, lines 39-49): if running, add
`(now - start).max(0) as u64` milliseconds to `total_time`, then clear the
running flag and the session start; otherwise do nothing. -/
def Task.stop (t : Task) (now : Int) : Task :=
  if t.is_running then
    match t.start_timestamp with
    | some start =>
        { t with
            total_time := t.total_time + (max (now - start) 0).toNat
            is_running := false
            start_timestamp := none }
    | none => { t with is_running := false, start_timestamp := none }
  else t

/-- `Task::reset` (task.rs, lines 52-55): `stop()` then zero the total. -/
def Task.reset (t : Task) (now : Int) : Task :=
  { t.stop now with total_time := 0 }

/-- `Task::get_current_time` (task.rs, lines 58-68): the stored total plus,
when running, the live elapsed `(now - start).max(0)` of the open session. -/
def Task.get_current_time (t : Task) (now : Int) : Nat :=
  if t.is_running then
    match t.start_timestamp with
    | some start => t.total_time + (max (now - start) 0).toNat
    | none => t.total_time
  else t.total_time

/-- Rust `{:02}` formatting of a natural number: decimal digits, left-padded
with zeros to width two. -/
def pad2 (n : Nat) : String :=
  if n < 10 then "0" ++ toString n else toString n

/-- `Task::format_duration` (task.rs, lines 71-77): `duration.as_secs()`
(milliseconds divided by 1000) rendered as zero-padded HH:MM:SS. -/
def Task.format_duration (ms : Nat) : String :=
  let total_seconds := ms / 1000
  let hours := total_seconds / 3600
  let minutes := (total_seconds % 3600) / 60
  let seconds := total_seconds % 60
  pad2 hours ++ ":" ++ pad2 minutes ++ ":" ++ pad2 seconds

/-- Model of `struct TaskDto` (task.rs, lines 82-88); `created_at` is the
`%Y-%m-%d %H:%M:%S`-formatted creation time, a second-resolution string,
modelled by the second-truncated timestamp (see the header comment). -/
structure TaskDto where
  name : String
  total_time_secs : Nat
  formatted_time : String
  is_running : Bool
  created_at : Int
  deriving DecidableEq, Repr

/-- `impl From<&Task> for TaskDto` (task.rs, lines 90-101); the `created_at`
field is the millisecond timestamp truncated to whole seconds, standing for
the second-resolution formatted string the code builds at line 98. -/
def TaskDto.ofTask (now : Int) (t : Task) : TaskDto :=
  let current_time := t.get_current_time now
  { name := t.name
    total_time_secs := current_time / 1000
    formatted_time := Task.format_duration current_time
    is_running := t.is_running
    created_at := t.created_at / 1000 }

/-- Error values produced by the command and state layers.  The source reports
errors as `String`s; each constructor stands for one message template:
`emptyName` for "Task name cannot be empty" (commands.rs, line 28),
`duplicateTask n` for "Task n already exists" (state.rs, line 43),
`notFound n` for "Task n not found" (state.rs, lines 63/82/101/120). -/
inductive TError where
  | emptyName
  | duplicateTask (name : String)
  | notFound (name : String)
  deriving DecidableEq, Repr

/-- The in-memory task map `HashMap<String, Task>`, as a partial map. -/
def Store : Type := String → Option Task

/-- `HashMap::insert` / in-place mutation through `get_mut`. -/
def Store.insert (m : Store) (name : String) (t : Task) : Store :=
  fun k => if k = name then some t else m k

/-- `HashMap::remove`. -/
def Store.erase (m : Store) (name : String) : Store :=
  fun k => if k = name then none else m k

/-- Result of one state-layer operation: the Rust return value, the map after
the operation, and the map handed to `Persistence::save_tasks` when the
operation reached its save call (`none` when it returned before saving). -/
structure OpOutcome where
  result : Except TError Unit
  tasks : Store
  saved : Option Store

/-- `AppState::add_task` (state.rs, lines 38-49): reject an existing key,
otherwise insert `Task::new` and save. -/
def AppState.add_task (tasks : Store) (name : String) (now : Int) : OpOutcome :=
  if (tasks name).isSome then
    { result := .error (.duplicateTask name), tasks := tasks, saved := none }
  else
    let tasks2 := tasks.insert name (Task.new name now)
    { result := .ok (), tasks := tasks2, saved := some tasks2 }

/-- Rust `char::is_whitespace`: the Unicode White_Space property —
U+0009..U+000D, U+0020, U+0085, U+00A0, U+1680, U+2000..U+200A, U+2028,
U+2029, U+202F, U+205F and U+3000. -/
def rustIsWhitespace (c : Char) : Bool :=
  (0x09 ≤ c.toNat && c.toNat ≤ 0x0D) || c.toNat = 0x20 || c.toNat = 0x85 ||
  c.toNat = 0xA0 || c.toNat = 0x1680 ||
  (0x2000 ≤ c.toNat && c.toNat ≤ 0x200A) ||
  c.toNat = 0x2028 || c.toNat = 0x2029 || c.toNat = 0x202F ||
  c.toNat = 0x205F || c.toNat = 0x3000

/-- Rust `str::trim`: remove Unicode-whitespace characters from both ends of
the string, modelled on the character list. -/
def strTrim (s : String) : String :=
  ⟨((s.data.dropWhile rustIsWhitespace).reverse.dropWhile rustIsWhitespace).reverse⟩

/-- Command `add_task` (commands.rs, lines 24-32): trim the name, reject an
empty trim, then call `AppState::add_task` with the trimmed name. -/
def Commands.add_task (tasks : Store) (name : String) (now : Int) : OpOutcome :=
  let trimmed_name := strTrim name
  if trimmed_name.isEmpty then
    { result := .error .emptyName, tasks := tasks, saved := none }
  else
    AppState.add_task tasks trimmed_name now

/-- `AppState::start_task` (state.rs, lines 58-68). -/
def AppState.start_task (tasks : Store) (name : String) (now : Int) : OpOutcome :=
  match tasks name with
  | none => { result := .error (.notFound name), tasks := tasks, saved := none }
  | some task =>
      let tasks2 := tasks.insert name (task.start now)
      { result := .ok (), tasks := tasks2, saved := some tasks2 }

/-- `AppState::stop_task` (state.rs, lines 77-87). -/
def AppState.stop_task (tasks : Store) (name : String) (now : Int) : OpOutcome :=
  match tasks name with
  | none => { result := .error (.notFound name), tasks := tasks, saved := none }
  | some task =>
      let tasks2 := tasks.insert name (task.stop now)
      { result := .ok (), tasks := tasks2, saved := some tasks2 }

/-- `AppState::reset_task` (state.rs, lines 96-106). -/
def AppState.reset_task (tasks : Store) (name : String) (now : Int) : OpOutcome :=
  match tasks name with
  | none => { result := .error (.notFound name), tasks := tasks, saved := none }
  | some task =>
      let tasks2 := tasks.insert name (task.reset now)
      { result := .ok (), tasks := tasks2, saved := some tasks2 }

/-- `AppState::delete_task` (state.rs, lines 115-125): `remove` returning
`None` is the not-found error; otherwise save the shrunken map. -/
def AppState.delete_task (tasks : Store) (name : String) : OpOutcome :=
  match tasks name with
  | none => { result := .error (.notFound name), tasks := tasks, saved := none }
  | some _ =>
      let tasks2 := tasks.erase name
      { result := .ok (), tasks := tasks2, saved := some tasks2 }

/-- The comparison `a.created_at.cmp(&b.created_at)` handed to `sort_by` in
`get_tasks` (commands.rs, line 17), as the boolean order a stable sort
consumes.  It compares the DTOs' formatted creation strings, i.e. the
second-truncated timestamps of the model: same-second tasks compare equal. -/
def dtoLe : TaskDto → TaskDto → Bool :=
  fun a b => decide (a.created_at ≤ b.created_at)

/-- Command `get_tasks` (commands.rs, lines 7-20): map the stored tasks (in
whatever order the map yields them, here the explicit list `values`) to DTOs,
then stably sort by the DTO creation time. -/
def Commands.get_tasks (values : List Task) (now : Int) : List TaskDto :=
  (values.map (TaskDto.ofTask now)).mergeSort dtoLe

/-- The persisted form of one task (task.rs, lines 6-16 with `duration_serde`,
lines 104-122): only `name`, `total_time` as whole seconds
(`duration.as_secs()`), and `created_at`; the `serde(skip)` fields
`start_timestamp` and `is_running` never reach the file. -/
structure PersistedTask where
  name : String
  total_time : Nat
  created_at : Int
  deriving DecidableEq, Repr

/-- Serde serialization of one `Task`: `duration_serde::serialize` writes
`as_secs()`, i.e. milliseconds divided by 1000; `created_at` round-trips
exactly through chrono. -/
def Task.serialize (t : Task) : PersistedTask :=
  { name := t.name
    total_time := t.total_time / 1000
    created_at := t.created_at }

/-- Serde deserialization of one `Task`: `duration_serde::deserialize` reads
`Duration::from_secs(secs)` (seconds times 1000 in the millisecond model);
the skipped fields take their defaults, `None` and `false`. -/
def PersistedTask.deserialize (p : PersistedTask) : Task :=
  { name := p.name
    total_time := p.total_time * 1000
    start_timestamp := none
    is_running := false
    created_at := p.created_at }

/-- `Persistence::save_tasks` (persistence.rs, lines 24-40), content only:
the JSON object holds every map entry with the task serialized. -/
def Persistence.save_tasks (tasks : List (String × Task)) :
    List (String × PersistedTask) :=
  tasks.map (fun kv => (kv.1, kv.2.serialize))

/-- `Persistence::load_tasks` (persistence.rs, lines 46-68), successful-parse
path: every persisted entry deserialized. -/
def Persistence.load_tasks (data : List (String × PersistedTask)) :
    List (String × Task) :=
  data.map (fun kv => (kv.1, kv.2.deserialize))

/-- The invariant of spec section 3: the running flag is set exactly when a
session start timestamp is present. -/
def Task.runningInv (t : Task) : Prop :=
  t.is_running = true ↔ t.start_timestamp.isSome = true

/-- C1: on a task that is running (running flag set and a session start
recorded), `stop()` adds the elapsed time `now - start`, clamped to at least
zero, to the accumulated `total_time`, clears the session start and the
running flag; on a task that is not running, `stop()` changes nothing.  The
operation is a total function of the task and the clock, so it never fails. -/
theorem Task.stop_spec (t : Task) (now : Int) :
    (∀ start, t.is_running = true → t.start_timestamp = some start →
      t.stop now =
        { t with
            total_time := t.total_time + (max (now - start) 0).toNat
            is_running := false
            start_timestamp := none }) ∧
    (t.is_running = false → t.stop now = t) := by
  constructor
  · intro start hr hs
    simp [Task.stop, hr, hs]
  · intro hn
    simp [Task.stop, hn]

theorem Task.stop_spec_witness :
    Task.stop ⟨"a", 5, some 10, true, 0⟩ 25 = ⟨"a", 20, none, false, 0⟩ ∧
    Task.stop ⟨"b", 7, none, false, 1⟩ 25 = ⟨"b", 7, none, false, 1⟩ := by
  constructor
  · have h := (Task.stop_spec ⟨"a", 5, some 10, true, 0⟩ 25).1 10 rfl rfl
    rw [h]; decide
  · exact (Task.stop_spec ⟨"b", 7, none, false, 1⟩ 25).2 rfl

/-- C4: whatever the prior state (running or not, any accumulated duration),
`reset()` leaves zero accumulated time and the running flag cleared; it is a
total function, so it never fails. -/
theorem Task.reset_spec (t : Task) (now : Int) :
    (t.reset now).total_time = 0 ∧ (t.reset now).is_running = false := by
  cases hr : t.is_running <;> cases hs : t.start_timestamp <;>
    simp [Task.reset, Task.stop, hr, hs]

/-- C10: on a task whose running flag is clear, `get_current_time` returns the
stored `total_time` whatever the clock reads — the result is the same for any
two clock readings; the function takes the task immutably and mutates
nothing. -/
theorem Task.get_current_time_spec (t : Task) (now now2 : Int)
    (h : t.is_running = false) :
    t.get_current_time now = t.total_time ∧
    t.get_current_time now = t.get_current_time now2 := by
  simp [Task.get_current_time, h]

theorem Task.get_current_time_spec_witness :
    Task.get_current_time ⟨"a", 7, none, false, 0⟩ 123 = 7 ∧
    Task.get_current_time ⟨"a", 7, none, false, 0⟩ 123
      = Task.get_current_time ⟨"a", 7, none, false, 0⟩ 456 :=
  Task.get_current_time_spec ⟨"a", 7, none, false, 0⟩ 123 456 rfl

/-- C8: `format_duration` renders a duration of `h` hours, `m` minutes and `s`
seconds (`m, s < 60`, `h` unbounded, so hours may exceed 23) as the zero-padded
fields `pad2 h ++ ":" ++ pad2 m ++ ":" ++ pad2 s`; sub-second precision is
truncated (the output only depends on the whole seconds); and the three
spec examples 0 s, 59 s and 3661 s render as stated. -/
theorem Task.format_duration_spec :
    (∀ h m s : Nat, m < 60 → s < 60 →
      Task.format_duration ((h * 3600 + m * 60 + s) * 1000)
        = pad2 h ++ ":" ++ pad2 m ++ ":" ++ pad2 s) ∧
    (∀ ms : Nat, Task.format_duration ms = Task.format_duration (ms / 1000 * 1000)) ∧
    Task.format_duration (0 * 1000) = "00:00:00" ∧
    Task.format_duration (59 * 1000) = "00:00:59" ∧
    Task.format_duration (3661 * 1000) = "01:01:01" ∧
    Task.format_duration (25 * 3600 * 1000) = "25:00:00" := by
  refine ⟨?_, ?_, by decide, by decide, by decide, by decide⟩
  · intro h m s hm hs
    have e1 : (h * 3600 + m * 60 + s) * 1000 / 1000 = h * 3600 + m * 60 + s := by
      omega
    have e2 : (h * 3600 + m * 60 + s) / 3600 = h := by omega
    have e3 : (h * 3600 + m * 60 + s) % 3600 / 60 = m := by omega
    have e4 : (h * 3600 + m * 60 + s) % 60 = s := by omega
    simp only [Task.format_duration, e1, e2, e3, e4]
  · intro ms
    have e : ms / 1000 * 1000 / 1000 = ms / 1000 := by omega
    simp only [Task.format_duration, e]

theorem Task.format_duration_spec_witness :
    Task.format_duration ((1 * 3600 + 1 * 60 + 1) * 1000)
      = pad2 1 ++ ":" ++ pad2 1 ++ ":" ++ pad2 1 ∧
    Task.format_duration 3661500 = Task.format_duration (3661500 / 1000 * 1000) := by
  constructor
  · exact Task.format_duration_spec.1 1 1 1 (by decide) (by decide)
  · exact Task.format_duration_spec.2.1 3661500

/-- C2: the invariant "running flag set iff a session start is present" holds
for a freshly constructed task, is preserved by `start`, `stop` and `reset`
applied to any task satisfying it, and holds for every task coming out of
deserialization, whose skipped fields default to not running. -/
theorem Task.runningInv_spec (t : Task) (name : String) (now : Int)
    (p : PersistedTask) (h : t.runningInv) :
    (Task.new name now).runningInv ∧
    (t.start now).runningInv ∧
    (t.stop now).runningInv ∧
    (t.reset now).runningInv ∧
    p.deserialize.runningInv := by
  refine ⟨by simp [Task.new, Task.runningInv], ?_, ?_, ?_,
    by simp [PersistedTask.deserialize, Task.runningInv]⟩
  · cases hr : t.is_running
    · simp [Task.start, Task.runningInv, hr]
    · simpa [Task.start, hr] using h
  · cases hr : t.is_running
    · simpa [Task.stop, hr] using h
    · cases hs : t.start_timestamp <;> simp [Task.stop, Task.runningInv, hr, hs]
  · cases hr : t.is_running
    · have hne : t.stop now = t := by simp [Task.stop, hr]
      simp only [Task.reset, hne]
      simpa [Task.runningInv, hr] using h
    · cases hs : t.start_timestamp <;>
        simp [Task.reset, Task.stop, Task.runningInv, hr, hs]

theorem Task.runningInv_spec_witness :
    (Task.new "b" 3).runningInv ∧
    (Task.start ⟨"a", 0, none, false, 0⟩ 5).runningInv ∧
    (Task.stop ⟨"a", 0, none, false, 0⟩ 5).runningInv ∧
    (Task.reset ⟨"a", 0, none, false, 0⟩ 5).runningInv ∧
    (PersistedTask.deserialize ⟨"c", 2, 7⟩).runningInv :=
  Task.runningInv_spec ⟨"a", 0, none, false, 0⟩ "b" 5 ⟨"c", 2, 7⟩
    (by simp [Task.runningInv])

/-- C5: `add(name)` fails with the empty-name error when the trimmed name is
empty and with the duplicate-task error when the trimmed name is already a key
of the store (the empty-name check runs first, so it wins when both apply);
in both failure cases the map is returned unchanged and the save call is
never reached, so nothing is persisted. -/
theorem Commands.add_task_error_spec (tasks : Store) (name : String) (now : Int) :
    ((strTrim name).isEmpty = true →
      Commands.add_task tasks name now =
        { result := .error .emptyName, tasks := tasks, saved := none }) ∧
    ((strTrim name).isEmpty = false → (tasks (strTrim name)).isSome = true →
      Commands.add_task tasks name now =
        { result := .error (.duplicateTask (strTrim name)), tasks := tasks,
          saved := none }) := by
  constructor
  · intro he
    simp [Commands.add_task, he]
  · intro he hd
    simp [Commands.add_task, AppState.add_task, he, hd]

theorem Commands.add_task_error_spec_witness :
    Commands.add_task (fun _ => none) "   " 0 =
      { result := .error .emptyName, tasks := fun _ => none, saved := none } ∧
    Commands.add_task
        (fun k => if k = "x" then some (Task.new "x" 0) else none) " x " 0 =
      { result := .error (.duplicateTask "x"),
        tasks := fun k => if k = "x" then some (Task.new "x" 0) else none,
        saved := none } := by
  constructor
  · exact (Commands.add_task_error_spec (fun _ => none) "   " 0).1 (by decide)
  · have h := (Commands.add_task_error_spec
      (fun k => if k = "x" then some (Task.new "x" 0) else none) " x " 0).2
      (by decide) (by decide)
    have e : strTrim " x " = "x" := by decide
    rw [e] at h
    exact h

/-- C6: on a name that is not a key of the store, each of `start_task`,
`stop_task`, `reset_task` and `delete_task` fails with the not-found error,
returns the map unchanged, and never reaches its save call. -/
theorem AppState.not_found_spec (tasks : Store) (name : String) (now : Int)
    (h : tasks name = none) :
    AppState.start_task tasks name now =
      { result := .error (.notFound name), tasks := tasks, saved := none } ∧
    AppState.stop_task tasks name now =
      { result := .error (.notFound name), tasks := tasks, saved := none } ∧
    AppState.reset_task tasks name now =
      { result := .error (.notFound name), tasks := tasks, saved := none } ∧
    AppState.delete_task tasks name =
      { result := .error (.notFound name), tasks := tasks, saved := none } := by
  refine ⟨?_, ?_, ?_, ?_⟩ <;>
    simp [AppState.start_task, AppState.stop_task, AppState.reset_task,
      AppState.delete_task, h]

theorem AppState.not_found_spec_witness :
    AppState.start_task (fun _ => none) "a" 0 =
      { result := .error (.notFound "a"), tasks := fun _ => none, saved := none } ∧
    AppState.stop_task (fun _ => none) "a" 0 =
      { result := .error (.notFound "a"), tasks := fun _ => none, saved := none } ∧
    AppState.reset_task (fun _ => none) "a" 0 =
      { result := .error (.notFound "a"), tasks := fun _ => none, saved := none } ∧
    AppState.delete_task (fun _ => none) "a" =
      { result := .error (.notFound "a"), tasks := fun _ => none, saved := none } :=
  AppState.not_found_spec (fun _ => none) "a" 0 rfl

/-- C9: on a name present in the store, `start_task`, `stop_task` and
`reset_task` change at most the map entry for that name — every other key
still maps to the very same task, with the same name, total time, running
state and creation time — and `delete_task` removes exactly the entry for
that name, leaving every other entry untouched. -/
theorem AppState.frame_spec (tasks : Store) (name : String) (now : Int)
    (t : Task) (h : tasks name = some t) :
    (∀ k, k ≠ name → (AppState.start_task tasks name now).tasks k = tasks k) ∧
    (∀ k, k ≠ name → (AppState.stop_task tasks name now).tasks k = tasks k) ∧
    (∀ k, k ≠ name → (AppState.reset_task tasks name now).tasks k = tasks k) ∧
    (AppState.delete_task tasks name).tasks name = none ∧
    (∀ k, k ≠ name → (AppState.delete_task tasks name).tasks k = tasks k) := by
  refine ⟨?_, ?_, ?_, ?_, ?_⟩ <;>
    simp [AppState.start_task, AppState.stop_task, AppState.reset_task,
      AppState.delete_task, Store.insert, Store.erase, h]
  all_goals intro k hk
  all_goals simp [hk]

theorem AppState.frame_spec_witness :
    (AppState.start_task
        (fun k => if k = "a" then some (Task.new "a" 0) else
          if k = "b" then some (Task.new "b" 1) else none) "a" 5).tasks "b"
      = some (Task.new "b" 1) ∧
    (AppState.delete_task
        (fun k => if k = "a" then some (Task.new "a" 0) else
          if k = "b" then some (Task.new "b" 1) else none) "a").tasks "a"
      = none ∧
    (AppState.delete_task
        (fun k => if k = "a" then some (Task.new "a" 0) else
          if k = "b" then some (Task.new "b" 1) else none) "a").tasks "b"
      = some (Task.new "b" 1) := by
  have h := AppState.frame_spec
    (fun k => if k = "a" then some (Task.new "a" 0) else
      if k = "b" then some (Task.new "b" 1) else none) "a" 5 (Task.new "a" 0)
    (by decide)
  exact ⟨h.1 "b" (by decide), h.2.2.2.1, h.2.2.2.2 "b" (by decide)⟩

/-- C3 as stated is false: in memory a stopped task can hold a fractional
number of seconds (stop banks milliseconds), but the file stores whole seconds
(`as_secs`), so loading back what was saved truncates the duration.  Concrete
counterexample: a store containing one non-running task with 1500 ms of
accumulated time loads back with 1000 ms, so the loaded map is not equal to
the saved one in the task's duration. -/
theorem Persistence.roundtrip_counterexample :
    (∀ kv ∈ [("a", (⟨"a", 1500, none, false, 0⟩ : Task))],
      (Prod.snd kv).is_running = false) ∧
    Persistence.load_tasks (Persistence.save_tasks
        [("a", (⟨"a", 1500, none, false, 0⟩ : Task))])
      = [("a", (⟨"a", 1000, none, false, 0⟩ : Task))] ∧
    ¬ Persistence.load_tasks (Persistence.save_tasks
        [("a", (⟨"a", 1500, none, false, 0⟩ : Task))])
      = [("a", (⟨"a", 1500, none, false, 0⟩ : Task))] := by
  refine ⟨by decide, by decide, by decide⟩

/-- C3 amended: for a store with no running tasks, saving to JSON and loading
back yields exactly the saved map with each task's duration truncated to whole
seconds — keys, names and creation times are preserved, every loaded task is
not running with its session start cleared, and the duration is unchanged
whenever it was a whole number of seconds.  Moreover persisted content
round-trips exactly the other way: serializing a deserialized task is the
identity, so saving what was loaded reproduces the file content. -/
theorem Persistence.save_load_roundtrip (tasks : List (String × Task))
    (hnr : ∀ kv ∈ tasks, (Prod.snd kv).is_running = false) :
    Persistence.load_tasks (Persistence.save_tasks tasks)
      = tasks.map (fun kv => (kv.1,
          (⟨kv.2.name, kv.2.total_time / 1000 * 1000, none, false,
            kv.2.created_at⟩ : Task))) ∧
    (∀ kv ∈ tasks, 1000 ∣ (Prod.snd kv).total_time →
      ((Prod.snd kv).serialize).deserialize.total_time
        = (Prod.snd kv).total_time) ∧
    (∀ p : PersistedTask, p.deserialize.serialize = p) := by
  refine ⟨?_, ?_, ?_⟩
  · simp only [Persistence.load_tasks, Persistence.save_tasks, List.map_map]
    rfl
  · intro kv _ hdvd
    simpa [Task.serialize, PersistedTask.deserialize] using
      Nat.div_mul_cancel hdvd
  · intro p
    simp [Task.serialize, PersistedTask.deserialize, Nat.mul_div_cancel]

theorem Persistence.save_load_roundtrip_witness :
    Persistence.load_tasks (Persistence.save_tasks
        [("a", (⟨"a", 2000, none, false, 5⟩ : Task))])
      = [("a", (⟨"a", 2000, none, false, 5⟩ : Task))] := by
  have h := (Persistence.save_load_roundtrip
    [("a", (⟨"a", 2000, none, false, 5⟩ : Task))] (by decide)).1
  rw [h]; decide

/-- The DTO order is transitive. -/
theorem dtoLe_trans : ∀ (a b c : TaskDto), dtoLe a b → dtoLe b c → dtoLe a c := by
  intro a b c h1 h2
  simp only [dtoLe, decide_eq_true_eq] at h1 h2 ⊢
  exact le_trans h1 h2

/-- The DTO order is total. -/
theorem dtoLe_total : ∀ (a b : TaskDto), dtoLe a b || dtoLe b a := by
  intro a b
  simp only [dtoLe, Bool.or_eq_true, decide_eq_true_eq]
  exact Int.le_total a.created_at b.created_at

/-- Sorting any DTO list by `dtoLe` yields a list ordered by ascending
creation time. -/
theorem mergeSort_dtoLe_sorted (l : List TaskDto) :
    (l.mergeSort dtoLe).Pairwise (fun a b => a.created_at ≤ b.created_at) :=
  (List.sorted_mergeSort dtoLe_trans dtoLe_total l).imp
    (fun hab => by simpa [dtoLe] using hab)

/-- Two permutations of the same DTOs with pairwise distinct creation times
sort to the same list. -/
theorem mergeSort_dtoLe_deterministic (l1 l2 : List TaskDto) (hp : l1.Perm l2)
    (hnd : (l1.map TaskDto.created_at).Nodup) :
    l1.mergeSort dtoLe = l2.mergeSort dtoLe := by
  have perm12 : (l1.mergeSort dtoLe).Perm (l2.mergeSort dtoLe) :=
    (List.mergeSort_perm l1 dtoLe).trans
      (hp.trans (List.mergeSort_perm l2 dtoLe).symm)
  have hnd2 : (l2.map TaskDto.created_at).Nodup :=
    (hp.map TaskDto.created_at).nodup_iff.mp hnd
  have strict : ∀ (l : List TaskDto), (l.map TaskDto.created_at).Nodup →
      (l.mergeSort dtoLe).Pairwise (fun a b => a.created_at < b.created_at) := by
    intro l hl
    have hnds : ((l.mergeSort dtoLe).map TaskDto.created_at).Nodup :=
      ((List.mergeSort_perm l dtoLe).map TaskDto.created_at).nodup_iff.mpr hl
    have hne : (l.mergeSort dtoLe).Pairwise
        (fun a b => a.created_at ≠ b.created_at) := List.pairwise_map.mp hnds
    exact ((mergeSort_dtoLe_sorted l).and hne).imp
      (fun hab => lt_of_le_of_ne hab.1 hab.2)
  haveI : IsAntisymm TaskDto (fun a b => a.created_at < b.created_at) :=
    ⟨fun a b h1 h2 => absurd h1 (lt_asymm h2)⟩
  exact List.eq_of_perm_of_sorted perm12 (strict l1 hnd) (strict l2 hnd2)

/-- C7 as stated is false: the code sorts by the second-resolution formatted
creation string, so two tasks created inside the same whole second (here at
1000 ms and 1500 ms) compare equal, the stable sort keeps the map's iteration
order, and two iteration orders of the same store produce two different
output lists — the result is not independent of the map's iteration order. -/
theorem Commands.get_tasks_counterexample :
    ([(⟨"a", 0, none, false, 1000⟩ : Task), ⟨"b", 0, none, false, 1500⟩]).Perm
      [(⟨"b", 0, none, false, 1500⟩ : Task), ⟨"a", 0, none, false, 1000⟩] ∧
    Commands.get_tasks
        [(⟨"a", 0, none, false, 1000⟩ : Task), ⟨"b", 0, none, false, 1500⟩] 0
      ≠ Commands.get_tasks
        [(⟨"b", 0, none, false, 1500⟩ : Task), ⟨"a", 0, none, false, 1000⟩] 0 := by
  constructor
  · decide
  · have e1 : Commands.get_tasks
        [(⟨"a", 0, none, false, 1000⟩ : Task), ⟨"b", 0, none, false, 1500⟩] 0
        = ([(⟨"a", 0, none, false, 1000⟩ : Task),
            ⟨"b", 0, none, false, 1500⟩]).map (TaskDto.ofTask 0) :=
      List.mergeSort_of_sorted (by decide)
    have e2 : Commands.get_tasks
        [(⟨"b", 0, none, false, 1500⟩ : Task), ⟨"a", 0, none, false, 1000⟩] 0
        = ([(⟨"b", 0, none, false, 1500⟩ : Task),
            ⟨"a", 0, none, false, 1000⟩]).map (TaskDto.ofTask 0) :=
      List.mergeSort_of_sorted (by decide)
    rw [e1, e2]
    decide

/-- C7 amended: `get_tasks` returns exactly the views of the stored tasks,
ordered (non-strictly) by ascending creation time at the second resolution of
the view's formatted `created_at` — the code's sort key — for every iteration
order the map may present; and whenever the creation times are pairwise
distinct at that second resolution, any two iteration orders of the same
store produce the same output list. -/
theorem Commands.get_tasks_spec (values : List Task) (now : Int) :
    (Commands.get_tasks values now).Pairwise
      (fun a b => a.created_at ≤ b.created_at) ∧
    (Commands.get_tasks values now).Perm (values.map (TaskDto.ofTask now)) ∧
    (∀ others : List Task, values.Perm others →
      (values.map (fun t => t.created_at / 1000)).Nodup →
      Commands.get_tasks values now = Commands.get_tasks others now) := by
  refine ⟨mergeSort_dtoLe_sorted _, List.mergeSort_perm _ _, ?_⟩
  intro others hp hnd
  apply mergeSort_dtoLe_deterministic
  · exact hp.map (TaskDto.ofTask now)
  · have e : (values.map (TaskDto.ofTask now)).map TaskDto.created_at
        = values.map (fun t => t.created_at / 1000) := by
      simp [List.map_map, TaskDto.ofTask, Function.comp]
    rw [e]
    exact hnd

theorem Commands.get_tasks_spec_witness :
    Commands.get_tasks
        [(⟨"b", 0, none, false, 2500⟩ : Task), (⟨"a", 0, none, false, 1000⟩ : Task)] 0
      = Commands.get_tasks
        [(⟨"a", 0, none, false, 1000⟩ : Task), (⟨"b", 0, none, false, 2500⟩ : Task)] 0 :=
  (Commands.get_tasks_spec
      [(⟨"b", 0, none, false, 2500⟩ : Task), (⟨"a", 0, none, false, 1000⟩ : Task)] 0).2.2
    [(⟨"a", 0, none, false, 1000⟩ : Task), (⟨"b", 0, none, false, 2500⟩ : Task)]
    (by decide) (by decide)

end TimeTracker
